import Mathlib

/-!
# Verification of the mastra-galileo integration glue

A shallow embedding of the TypeScript sources of `rungalileo/mastraai-agents`:
the Galileo logger configuration (`src/logger/galileo-logger.ts`), the tracing
context helpers (`src/tracing-context.ts` and the RuntimeContext-based copy),
the Stripe tools (`src/mastra/tools/stripe-tools.ts`), and the weather
tool/workflow (`weather-tool.ts`, `weather-workflow.ts`).

JavaScript conventions used throughout the embedding:
* a value of type `string | undefined` is `Option String`; it is JS-truthy
  exactly when it is `some s` with `s` non-empty (the empty string is falsy);
* an opaque object handle (a Galileo span) is `Option Span` with `Span := Nat`;
  an object reference is always truthy, so truthiness is `Option.isSome`;
* a thrown JS value is `JsErr`: either an `Error` instance carrying a message,
  or some non-`Error` value;
* fallible async functions become `Except JsErr α`; external HTTP/SDK calls
  become oracle functions carried in a "world" record, and functions that talk
  to the outside world additionally return the list of external requests they
  issued, in order;
* host builtins (`encodeURIComponent`, `parseInt`) are part of the runtime
  environment, so they too live in the world record;
* JS numbers that the code merely passes through unchanged are modelled as
  `Int` (no arithmetic is ever performed on them by this code).
-/

namespace MastraGalileo

/-- A thrown JavaScript value: an `Error` object with a message, or any
non-`Error` value (the code only ever inspects `instanceof Error` and
`.message`). -/
inductive JsErr where
  | errObj (message : String)
  | nonError
deriving DecidableEq, Repr

/-- The message extraction performed by the catch blocks:
`error instanceof Error ? error.message : 'Unknown error'`. -/
def JsErr.messageOrUnknown : JsErr → String
  | .errObj m => m
  | .nonError => "Unknown error"

/-- JS truthiness of a `string | undefined` value: `undefined` and the empty
string are falsy, every other string is truthy. -/
def jsTruthy (v : Option String) : Bool :=
  match v with
  | none => false
  | some s => s != ""

/-- The JS expression `v || d` on a `string | undefined` value `v` and a
string default `d`. -/
def jsOrDefault (v : Option String) (d : String) : String :=
  if jsTruthy v then v.getD "" else d

/-- An opaque Galileo span handle. The code never looks inside a span, it only
stores and forwards references; an object reference is always JS-truthy. -/
def Span := Nat
deriving DecidableEq, Repr

/-! ## Environment variable handling (`src/logger/galileo-logger.ts`) -/

/-- The process environment: `process.env[key]` is a `string | undefined`. -/
def Env := String → Option String

/-- `getEnvString(key, defaultValue?)` from `galileo-logger.ts`:
returns the variable when truthy; otherwise returns the default when one was
supplied, and throws `Required environment variable <key> is not set` when
not. -/
def getEnvString (env : Env) (key : String) (defaultValue : Option String) :
    Except JsErr String :=
  let value := env key
  if jsTruthy value then
    .ok (value.getD "")
  else
    match defaultValue with
    | some d => .ok d
    | none => .error (.errObj ("Required environment variable " ++ key ++ " is not set"))

/-- `getEnvBoolean(key, defaultValue = true)` from `galileo-logger.ts`:
returns the default when the variable is falsy, otherwise
`value.toLowerCase() === 'true' || value === '1'`. -/
def getEnvBoolean (env : Env) (key : String) (defaultValue : Bool) : Bool :=
  let value := env key
  if !jsTruthy value then defaultValue
  else (value.getD "").toLower == "true" || (value.getD "") == "1"

/-- The `GalileoConfig` record built by the `config` module-level constant.
`baseUrl` and `enabled` are optional in the interface but the loader always
sets them, so they are plain fields here. -/
structure GalileoConfig where
  projectName : String
  logStreamName : String
  apiKey : String
  baseUrl : String
  enabled : Bool
deriving DecidableEq, Repr

/-- The module-level `config` initializer of `galileo-logger.ts`, with the
field initializers evaluated in source order (JS object-literal semantics).
Only the `apiKey` field has no default, so it is the only one that can
throw. -/
def loadConfig (env : Env) : Except JsErr GalileoConfig := do
  let projectName ← getEnvString env "GALILEO_PROJECT_NAME" (some "mastra-agents")
  let logStreamName ← getEnvString env "GALILEO_LOG_STREAM_NAME" (some "default-stream")
  let apiKey ← getEnvString env "GALILEO_API_KEY" none
  let baseUrl ← getEnvString env "GALILEO_BASE_URL" (some "https://api.galileo.ai")
  let enabled := getEnvBoolean env "GALILEO_ENABLED" true
  return { projectName := projectName, logStreamName := logStreamName,
           apiKey := apiKey, baseUrl := baseUrl, enabled := enabled }

/-! ## Weather condition table (`weather-tool.ts` and `weather-workflow.ts`)

Both files contain a textually identical private `getWeatherCondition`; each
copy is embedded separately so that their equality can be stated. -/

/-- The `conditions` record literal of `getWeatherCondition` in
`weather-tool.ts`, as an association list in source order. -/
def conditionsTable : List (Int × String) :=
  [(0, "Clear sky"), (1, "Mainly clear"), (2, "Partly cloudy"), (3, "Overcast"),
   (45, "Foggy"), (48, "Depositing rime fog"),
   (51, "Light drizzle"), (53, "Moderate drizzle"), (55, "Dense drizzle"),
   (56, "Light freezing drizzle"), (57, "Dense freezing drizzle"),
   (61, "Slight rain"), (63, "Moderate rain"), (65, "Heavy rain"),
   (66, "Light freezing rain"), (67, "Heavy freezing rain"),
   (71, "Slight snow fall"), (73, "Moderate snow fall"), (75, "Heavy snow fall"),
   (77, "Snow grains"),
   (80, "Slight rain showers"), (81, "Moderate rain showers"),
   (82, "Violent rain showers"),
   (85, "Slight snow showers"), (86, "Heavy snow showers"),
   (95, "Thunderstorm"), (96, "Thunderstorm with slight hail"),
   (99, "Thunderstorm with heavy hail")]

/-- `getWeatherCondition(code)` from `weather-tool.ts`:
`conditions[code] || 'Unknown'` — an absent key yields `undefined`, and `||`
replaces any falsy lookup result by `'Unknown'`. -/
def getWeatherCondition (code : Int) : String :=
  match conditionsTable.lookup code with
  | some s => if s != "" then s else "Unknown"
  | none => "Unknown"

/-- The `conditions` record literal of the `getWeatherCondition` copy in
`weather-workflow.ts` (textually identical to the tool's copy). -/
def conditionsTableWorkflow : List (Int × String) :=
  [(0, "Clear sky"), (1, "Mainly clear"), (2, "Partly cloudy"), (3, "Overcast"),
   (45, "Foggy"), (48, "Depositing rime fog"),
   (51, "Light drizzle"), (53, "Moderate drizzle"), (55, "Dense drizzle"),
   (56, "Light freezing drizzle"), (57, "Dense freezing drizzle"),
   (61, "Slight rain"), (63, "Moderate rain"), (65, "Heavy rain"),
   (66, "Light freezing rain"), (67, "Heavy freezing rain"),
   (71, "Slight snow fall"), (73, "Moderate snow fall"), (75, "Heavy snow fall"),
   (77, "Snow grains"),
   (80, "Slight rain showers"), (81, "Moderate rain showers"),
   (82, "Violent rain showers"),
   (85, "Slight snow showers"), (86, "Heavy snow showers"),
   (95, "Thunderstorm"), (96, "Thunderstorm with slight hail"),
   (99, "Thunderstorm with heavy hail")]

/-- The `getWeatherCondition` copy private to `weather-workflow.ts`. -/
def getWeatherConditionWorkflow (code : Int) : String :=
  match conditionsTableWorkflow.lookup code with
  | some s => if s != "" then s else "Unknown"
  | none => "Unknown"

/-! ## Tracing context, RuntimeContext-based copy (`src/context/tracing-context.ts`)

The `RuntimeContext<MastraTracingContext>` keyed store holds at most the three
keys `traceId`, `currentSpan`, `parentSpan`; `get` returns the stored value or
`undefined`.  It is embedded as a record of three optional fields.  A span
value is an object reference, hence always truthy when present; the trace id
is a string, falsy when empty. -/

/-- The `RuntimeContext<MastraTracingContext>` store: its three possible keys,
each `undefined` until `set`. -/
structure RuntimeCtx where
  traceId : Option String
  currentSpan : Option Span
  parentSpan : Option Span
deriving DecidableEq, Repr

/-- `new RuntimeContext<MastraTracingContext>()`: an empty store. -/
def RuntimeCtx.empty : RuntimeCtx :=
  { traceId := none, currentSpan := none, parentSpan := none }

/-- `getTracingContext(runtimeContext)` from `context/tracing-context.ts`:
reads the three keys into a `MastraTracingContext` record (same shape). -/
def getTracingContext (runtimeContext : RuntimeCtx) : RuntimeCtx :=
  { traceId := runtimeContext.traceId,
    currentSpan := runtimeContext.currentSpan,
    parentSpan := runtimeContext.parentSpan }

/-- `setTracingContext(runtimeContext, context)` from
`context/tracing-context.ts`: each of the three fields of the partial update
is written only when truthy (state-passing rendition of the in-place `set`
calls). -/
def setTracingContext (runtimeContext : RuntimeCtx) (context : RuntimeCtx) :
    RuntimeCtx :=
  let r := if jsTruthy context.traceId
           then { runtimeContext with traceId := context.traceId }
           else runtimeContext
  let r := if context.currentSpan.isSome
           then { r with currentSpan := context.currentSpan }
           else r
  if context.parentSpan.isSome
  then { r with parentSpan := context.parentSpan }
  else r

/-- `createChildTracingContext(parentContext)` from
`context/tracing-context.ts`: starts from a fresh `RuntimeContext`, copies the
parent's `traceId` when truthy, and stores the parent's `currentSpan` under
the child's `parentSpan` key when truthy. -/
def createChildTracingContext (parentContext : RuntimeCtx) : RuntimeCtx :=
  let childContext := RuntimeCtx.empty
  let traceId := parentContext.traceId
  let childContext := if jsTruthy traceId
                      then { childContext with traceId := traceId }
                      else childContext
  let currentSpan := parentContext.currentSpan
  if currentSpan.isSome
  then { childContext with parentSpan := currentSpan }
  else childContext

/-! ## Tracing context, simple copy (`src/tracing-context.ts`)

This copy works directly on the (possibly absent) Mastra context object and
its `TracingContext` interface has only `traceId` and `currentSpan`. -/

/-- The `TracingContext` interface of `src/tracing-context.ts`. -/
structure SimpleTracingContext where
  traceId : Option String
  currentSpan : Option Span
deriving DecidableEq, Repr

/-- The fields of the Mastra context object that `src/tracing-context.ts`
reads and writes. -/
structure MastraCtx where
  traceId : Option String
  currentSpan : Option Span
deriving DecidableEq, Repr

/-- `getTracingContext(mastraContext?)` from `src/tracing-context.ts`:
returns `{}` (both fields `undefined`) when the context is absent, otherwise
reads the two fields. -/
def getTracingContextSimple (mastraContext : Option MastraCtx) :
    SimpleTracingContext :=
  match mastraContext with
  | none => { traceId := none, currentSpan := none }
  | some c => { traceId := c.traceId, currentSpan := c.currentSpan }

/-- `setTracingContext(mastraContext, tracingContext)` from
`src/tracing-context.ts`: returns immediately when the target is absent;
otherwise writes each field only when its new value is truthy
(state-passing rendition of the in-place assignments). -/
def setTracingContextSimple (mastraContext : Option MastraCtx)
    (tracingContext : SimpleTracingContext) : Option MastraCtx :=
  match mastraContext with
  | none => none
  | some c =>
    let c := if jsTruthy tracingContext.traceId
             then { c with traceId := tracingContext.traceId }
             else c
    some (if tracingContext.currentSpan.isSome
          then { c with currentSpan := tracingContext.currentSpan }
          else c)

/-- `createChildTracingContext(parentContext?)` from `src/tracing-context.ts`:
reads the parent's tracing context (an absent parent reads as all-absent) and
returns a new record copying `traceId` unconditionally — no truthiness guard
in this copy — and carrying the parent's `currentSpan` in the child's
`currentSpan` field, which per the source comment "becomes the parent span
for children" (this copy's `TracingContext` interface has no `parentSpan`
field). -/
def createChildTracingContextSimple (parentContext : Option MastraCtx) :
    SimpleTracingContext :=
  let parentTracing := getTracingContextSimple parentContext
  { traceId := parentTracing.traceId,
    currentSpan := parentTracing.currentSpan }

/-! ## Logging wrapper and graceful shutdown (`src/logger/galileo-logger.ts`) -/

/-- The options record taken by `logOperation` and the external `log`. -/
structure LogOptions where
  name : String
  spanType : String
deriving DecidableEq, Repr

/-- `logOperation(options, fn)` from `galileo-logger.ts`, parameterized by the
configuration and by the external SDK's `log` combinator: when the
configuration is disabled it returns `fn` itself, otherwise it defers to the
SDK. -/
def logOperation {α β : Type} (config : GalileoConfig)
    (log : LogOptions → (α → Except JsErr β) → (α → Except JsErr β))
    (options : LogOptions) (fn : α → Except JsErr β) : α → Except JsErr β :=
  if !config.enabled then fn
  else log options fn

/-- The observable events of the shutdown path: console output, the external
`flush()` call, and `process.exit`. -/
inductive ShutdownEvent where
  | consoleLog (msg : String)
  | consoleError (msg : String)
  | flushCall
  | exitCall (code : Nat)
deriving DecidableEq, Repr

/-- `gracefulFlush()` from `galileo-logger.ts`, as the trace of events it
produces given the outcome of the single external `flush()` call.  The
`try`/`catch` swallows a flush failure after logging it, so the function
always returns normally — reflected in the total return type. -/
def gracefulFlush (config : GalileoConfig) (flushOutcome : Except JsErr Unit) :
    List ShutdownEvent :=
  if config.enabled then
    match flushOutcome with
    | .ok _ =>
        [.consoleLog "Flushing Galileo logger...", .flushCall,
         .consoleLog "Galileo logger flushed successfully"]
    | .error _ =>
        [.consoleLog "Flushing Galileo logger...", .flushCall,
         .consoleError "Error flushing Galileo logger:"]
  else []

/-- The `process.on('SIGINT', ...)` handler: log, `await gracefulFlush()`,
then `process.exit(0)`. -/
def sigintHandler (config : GalileoConfig) (flushOutcome : Except JsErr Unit) :
    List ShutdownEvent :=
  .consoleLog "Received SIGINT, gracefully shutting down..." ::
    (gracefulFlush config flushOutcome ++ [.exitCall 0])

/-- The `process.on('SIGTERM', ...)` handler: log, `await gracefulFlush()`,
then `process.exit(0)`. -/
def sigtermHandler (config : GalileoConfig) (flushOutcome : Except JsErr Unit) :
    List ShutdownEvent :=
  .consoleLog "Received SIGTERM, gracefully shutting down..." ::
    (gracefulFlush config flushOutcome ++ [.exitCall 0])

/-- Number of external `flush()` calls in a shutdown trace. -/
def countFlushCalls (events : List ShutdownEvent) : Nat :=
  events.countP (fun e => e == .flushCall)

/-- Number of `process.exit` calls in a shutdown trace. -/
def countExitCalls (events : List ShutdownEvent) : Nat :=
  events.countP (fun e => match e with | .exitCall _ => true | _ => false)

/-! ## Weather tool (`src/mastra/tools/weather-tool.ts`)

`getWeather` talks to two Open-Meteo endpoints via `fetch`.  The world record
carries one oracle per endpoint (keyed by the full request URL) plus the host
builtin `encodeURIComponent`; `getWeather` returns its result together with
the list of external requests it issued, in order. -/

/-- An external request issued by a tool operation: an HTTP GET to a URL, or
an invocation of a named Stripe-toolkit tool. -/
inductive Request where
  | httpGet (url : String)
  | sdkInvoke (toolName : String)
deriving DecidableEq, Repr

/-- One element of the `results` array of the geocoding response. -/
structure GeoResult where
  latitude : Int
  longitude : Int
  name : String
deriving DecidableEq, Repr

/-- The `GeocodingResponse` shape: the `results` field may be missing
(the code guards with `results?.[0]`). -/
structure GeocodingResponse where
  results : Option (List GeoResult)
deriving DecidableEq, Repr

/-- The `current` object of the `WeatherResponse`. -/
structure WeatherCurrent where
  time : String
  temperature_2m : Int
  apparent_temperature : Int
  relative_humidity_2m : Int
  wind_speed_10m : Int
  wind_gusts_10m : Int
  weather_code : Int
deriving DecidableEq, Repr

/-- The `WeatherResponse` shape. -/
structure WeatherResponse where
  current : WeatherCurrent
deriving DecidableEq, Repr

/-- Outcome of a `fetch`: the promise rejects (network error), or a response
arrives with its `ok` flag, `statusText`, and already-parsed JSON body. -/
inductive FetchOutcome (α : Type) where
  | reject (e : JsErr)
  | response (ok : Bool) (statusText : String) (body : α)

/-- The external world visible to `getWeather`: the host
`encodeURIComponent` builtin and one oracle per Open-Meteo endpoint, keyed by
the full request URL. -/
structure WeatherWorld where
  encodeURIComponent : String → String
  geocodeFetch : String → FetchOutcome GeocodingResponse
  forecastFetch : String → FetchOutcome WeatherResponse

/-- The record returned by `getWeather` (the tool's output schema). -/
structure WeatherOutput where
  temperature : Int
  feelsLike : Int
  humidity : Int
  windSpeed : Int
  windGust : Int
  conditions : String
  location : String
deriving DecidableEq, Repr

/-- The geocoding URL built by `getWeather`. -/
def geocodingUrlFor (w : WeatherWorld) (location : String) : String :=
  "https://geocoding-api.open-meteo.com/v1/search?name=" ++
    w.encodeURIComponent location ++ "&count=1"

/-- The forecast URL built by `getWeather` from the geocoding result. -/
def weatherUrlFor (latitude longitude : Int) : String :=
  "https://api.open-meteo.com/v1/forecast?latitude=" ++ toString latitude ++
    "&longitude=" ++ toString longitude ++
    "&current=temperature_2m,apparent_temperature,relative_humidity_2m,wind_speed_10m,wind_gusts_10m,weather_code"

/-- `getWeather(location)` from `weather-tool.ts` (the body wrapped by the
external `log` combinator): geocode the location, check `response.ok`, guard
`results?.[0]`, fetch the forecast, check `response.ok`, and reshape.  It has
no `try`/`catch`, so every error propagates as raised.  The second component
is the list of external requests issued. -/
def getWeather (w : WeatherWorld) (location : String) :
    Except JsErr WeatherOutput × List Request :=
  let geocodingUrl := geocodingUrlFor w location
  match w.geocodeFetch geocodingUrl with
  | .reject e => (.error e, [.httpGet geocodingUrl])
  | .response ok statusText geocodingData =>
    if !ok then
      (.error (.errObj ("Failed to geocode location '" ++ location ++ "': " ++
         statusText)), [.httpGet geocodingUrl])
    else
      match (match geocodingData.results with
             | none => none
             | some rs => rs.head?) with
      | none =>
          (.error (.errObj ("Location '" ++ location ++ "' not found")),
           [.httpGet geocodingUrl])
      | some first =>
        let weatherUrl := weatherUrlFor first.latitude first.longitude
        match w.forecastFetch weatherUrl with
        | .reject e => (.error e, [.httpGet geocodingUrl, .httpGet weatherUrl])
        | .response ok2 statusText2 data =>
          if !ok2 then
            (.error (.errObj ("Failed to fetch weather data for '" ++
               first.name ++ "': " ++ statusText2)),
             [.httpGet geocodingUrl, .httpGet weatherUrl])
          else
            (.ok { temperature := data.current.temperature_2m,
                   feelsLike := data.current.apparent_temperature,
                   humidity := data.current.relative_humidity_2m,
                   windSpeed := data.current.wind_speed_10m,
                   windGust := data.current.wind_gusts_10m,
                   conditions := getWeatherCondition data.current.weather_code,
                   location := first.name },
             [.httpGet geocodingUrl, .httpGet weatherUrl])

/-- The `context` destructured by `weatherTool.execute`; the declared zod
schema requires a string, but at runtime the field is whatever the caller
passed, hence optional. -/
structure WeatherToolContext where
  location : Option String
deriving DecidableEq, Repr

/-- `weatherTool.execute({ context })` from `weather-tool.ts`: throws
`Location is required` when `context.location` is falsy, otherwise returns
`await getWeather(location)` unchanged. -/
def weatherToolExecute (w : WeatherWorld) (context : WeatherToolContext) :
    Except JsErr WeatherOutput × List Request :=
  if !jsTruthy context.location then
    (.error (.errObj "Location is required"), [])
  else
    getWeather w (context.location.getD "")

/-! ## Stripe tools (`src/mastra/tools/stripe-tools.ts`)

The Stripe Agent Toolkit is external: `getTools()` is a local lookup over the
toolkit's tool list (no network), while `tool.invoke(...)` is the external SDK
call.  The world record carries the toolkit's tool names, the host `parseInt`
builtin, and one invoke oracle per tool used.  `parseInt` may yield `NaN`,
modelled as `none`. -/

/-- The argument object passed to `paymentLinkTool.invoke` (flattened:
`line_items` always has exactly one entry built from these fields). -/
structure PaymentLinkParams where
  price : String
  currency : String
  productName : String
  unit_amount : Option (Option Int)
  quantity : Int
  success_url : String
  cancel_url : String
deriving DecidableEq, Repr

/-- The fields of the SDK's payment-link result that the code reads. -/
structure StripeLinkResult where
  url : String
  id : String
deriving DecidableEq, Repr

/-- The argument object passed to `customerTool.invoke`. -/
structure CustomerParams where
  email : String
  name : Option String
  phone : Option String
deriving DecidableEq, Repr

/-- The fields of the SDK's customer result that the code reads. -/
structure StripeCustomerResult where
  id : String
  email : String
  name : Option String
deriving DecidableEq, Repr

/-- The external world visible to the Stripe helpers: the names in
`stripeAgentToolkit.getTools()`, the host `parseInt` builtin (`none` = NaN),
and the outcome of each SDK `invoke`. -/
structure StripeWorld where
  toolNames : List String
  parseIntJs : String → Option Int
  invokePaymentLink : PaymentLinkParams → Except JsErr StripeLinkResult
  invokeCustomer : CustomerParams → Except JsErr StripeCustomerResult

/-- The record returned by `createPaymentLink` (the tool's output schema). -/
structure PaymentLinkOutput where
  paymentLink : String
  paymentLinkId : String
  success : Bool
deriving DecidableEq, Repr

/-- The record returned by `createCustomer` (the tool's output schema). -/
structure CustomerOutput where
  customerId : String
  email : String
  name : Option String
  success : Bool
deriving DecidableEq, Repr

/-- The argument object `createPaymentLink` builds for
`paymentLinkTool.invoke` (the single `line_items` entry flattened into the
record; `typeof price === 'string'` is always true here). -/
def paymentLinkParamsFor (w : StripeWorld) (price productName : String)
    (successUrl cancelUrl : Option String) : PaymentLinkParams :=
  { price := price,
    currency := "usd",
    productName := productName,
    unit_amount := if !(price.startsWith "price_")
                   then some (w.parseIntJs price)
                   else none,
    quantity := 1,
    success_url := jsOrDefault successUrl "https://example.com/success",
    cancel_url := jsOrDefault cancelUrl "https://example.com/cancel" }

/-- `createPaymentLink(price, productName, successUrl?, cancelUrl?)` from
`stripe-tools.ts` (the body wrapped by the external `log` combinator).  The
whole body sits in a `try` whose `catch` throws a fresh
`Error('Failed to create payment link: ' + message)`, so the missing-tool
error and any SDK error alike reach the caller re-wrapped.  The second
component is the list of external SDK calls issued. -/
def createPaymentLink (w : StripeWorld) (price productName : String)
    (successUrl cancelUrl : Option String) :
    Except JsErr PaymentLinkOutput × List Request :=
  if !(w.toolNames.contains "create_payment_link") then
    (.error (.errObj ("Failed to create payment link: " ++
       JsErr.messageOrUnknown (.errObj "Payment link tool not available"))), [])
  else
    match w.invokePaymentLink
        (paymentLinkParamsFor w price productName successUrl cancelUrl) with
    | .ok result =>
        (.ok { paymentLink := result.url, paymentLinkId := result.id,
               success := true },
         [.sdkInvoke "create_payment_link"])
    | .error e =>
        (.error (.errObj ("Failed to create payment link: " ++
           e.messageOrUnknown)),
         [.sdkInvoke "create_payment_link"])

/-- `createCustomer(email, name?, phone?)` from `stripe-tools.ts` (the body
wrapped by the external `log` combinator), with the same `try`/`catch`
re-wrapping pattern, prefix `Failed to create customer: `. -/
def createCustomer (w : StripeWorld) (email : String)
    (name phone : Option String) :
    Except JsErr CustomerOutput × List Request :=
  if !(w.toolNames.contains "create_customer") then
    (.error (.errObj ("Failed to create customer: " ++
       JsErr.messageOrUnknown (.errObj "Customer creation tool not available"))), [])
  else
    let params : CustomerParams := { email := email, name := name, phone := phone }
    match w.invokeCustomer params with
    | .ok result =>
        (.ok { customerId := result.id, email := result.email,
               name := result.name, success := true },
         [.sdkInvoke "create_customer"])
    | .error e =>
        (.error (.errObj ("Failed to create customer: " ++ e.messageOrUnknown)),
         [.sdkInvoke "create_customer"])

/-- The `context` destructured by `createPaymentLinkTool.execute`. -/
structure PaymentLinkContext where
  price : Option String
  productName : Option String
  successUrl : Option String
  cancelUrl : Option String
deriving DecidableEq, Repr

/-- `createPaymentLinkTool.execute({ context })` from `stripe-tools.ts`:
throws `Price and product name are required` when `!price || !productName`,
otherwise returns `await createPaymentLink(...)` unchanged. -/
def createPaymentLinkToolExecute (w : StripeWorld)
    (context : PaymentLinkContext) :
    Except JsErr PaymentLinkOutput × List Request :=
  if !jsTruthy context.price || !jsTruthy context.productName then
    (.error (.errObj "Price and product name are required"), [])
  else
    createPaymentLink w (context.price.getD "") (context.productName.getD "")
      context.successUrl context.cancelUrl

/-- The `context` destructured by `createCustomerTool.execute`. -/
structure CustomerContext where
  email : Option String
  name : Option String
  phone : Option String
deriving DecidableEq, Repr

/-- `createCustomerTool.execute({ context })` from `stripe-tools.ts`: throws
`Email is required` when `!email`, otherwise returns
`await createCustomer(...)` unchanged. -/
def createCustomerToolExecute (w : StripeWorld) (context : CustomerContext) :
    Except JsErr CustomerOutput × List Request :=
  if !jsTruthy context.email then
    (.error (.errObj "Email is required"), [])
  else
    createCustomer w (context.email.getD "") context.name context.phone

/-! ## Sample worlds used to evaluate the definitions on concrete inputs -/

/-- A weather world whose two endpoints both succeed: geocoding finds Paris,
the forecast reports weather code 3 (Overcast). -/
def sampleWeatherWorldOk : WeatherWorld :=
  { encodeURIComponent := fun s => s,
    geocodeFetch := fun _ =>
      .response true "OK" { results := some [{ latitude := 48, longitude := 2, name := "Paris" }] },
    forecastFetch := fun _ =>
      .response true "OK"
        { current := { time := "2026-10-12T00:00", temperature_2m := 18,
                       apparent_temperature := 17, relative_humidity_2m := 60,
                       wind_speed_10m := 10, wind_gusts_10m := 15,
                       weather_code := 3 } } }

/-- A Stripe world where both tools exist and both SDK calls succeed. -/
def sampleStripeWorldOk : StripeWorld :=
  { toolNames := ["create_payment_link", "create_customer"],
    parseIntJs := fun _ => none,
    invokePaymentLink := fun _ => .ok { url := "https://buy.stripe.com/x", id := "plink_1" },
    invokeCustomer := fun _ => .ok { id := "cus_1", email := "ann@example.com", name := some "Ann" } }

/-- A Stripe world where both tools exist but every SDK call fails with an
`Error` raised by the external SDK. -/
def sampleStripeWorldDecline : StripeWorld :=
  { toolNames := ["create_payment_link", "create_customer"],
    parseIntJs := fun _ => none,
    invokePaymentLink := fun _ => .error (.errObj "Your card was declined."),
    invokeCustomer := fun _ => .error (.errObj "Your card was declined.") }

/-! ## Helper lemmas -/

/-- An association-list lookup misses every key it differs from. -/
theorem lookup_eq_none_of_forall_ne {l : List (Int × String)} {a : Int}
    (h : ∀ p ∈ l, a ≠ p.1) : l.lookup a = none := by
  induction l with
  | nil => rfl
  | cons p t ih =>
    obtain ⟨k, v⟩ := p
    have hk : (a == k) = false := by
      have := h (k, v) (List.mem_cons_self _ _)
      simpa using this
    simp [List.lookup, hk]
    intro x b hx
    exact h (x, b) (List.mem_cons_of_mem _ hx)

/-- `getEnvString` with a supplied default never throws: it returns the
variable when truthy and the default otherwise. -/
theorem getEnvString_some_default (env : Env) (key d : String) :
    getEnvString env key (some d) = .ok (jsOrDefault (env key) d) := by
  unfold getEnvString jsOrDefault
  by_cases h : jsTruthy (env key) = true <;> simp [h]

/-- `getEnvString` with no default returns the variable when truthy and
throws the descriptive message otherwise. -/
theorem getEnvString_no_default (env : Env) (key : String) :
    getEnvString env key none =
      (if jsTruthy (env key) then .ok ((env key).getD "")
       else .error (.errObj ("Required environment variable " ++ key ++ " is not set"))) := by
  unfold getEnvString
  by_cases h : jsTruthy (env key) = true <;> simp [h]

/-- Closed form of the module-level `config` initializer: the only way it can
throw is through the defaultless `GALILEO_API_KEY` lookup. -/
theorem loadConfig_eq (env : Env) :
    loadConfig env =
      (if jsTruthy (env "GALILEO_API_KEY") then
        .ok { projectName := jsOrDefault (env "GALILEO_PROJECT_NAME") "mastra-agents",
              logStreamName := jsOrDefault (env "GALILEO_LOG_STREAM_NAME") "default-stream",
              apiKey := (env "GALILEO_API_KEY").getD "",
              baseUrl := jsOrDefault (env "GALILEO_BASE_URL") "https://api.galileo.ai",
              enabled := getEnvBoolean env "GALILEO_ENABLED" true }
       else .error (.errObj "Required environment variable GALILEO_API_KEY is not set")) := by
  unfold loadConfig
  rw [getEnvString_some_default, getEnvString_some_default,
      getEnvString_no_default, getEnvString_some_default]
  by_cases h : jsTruthy (env "GALILEO_API_KEY") = true <;>
    simp [h, Except.bind, bind, pure, Except.pure]

/-! ## C10 -/

/-- C10: `getWeatherCondition` is total on numeric weather codes: each of the
28 codes in its table maps to its listed description, every other code maps
to `Unknown`, the result is never the empty string (so in particular the
function never throws — it is a total function in this embedding), and the
workflow's private copy computes the same function as the tool's copy. -/
theorem weatherCondition_total_and_copies_agree :
    (∀ p ∈ conditionsTable, getWeatherCondition p.1 = p.2)
    ∧ (∀ code : Int, (∀ p ∈ conditionsTable, code ≠ p.1) →
        getWeatherCondition code = "Unknown")
    ∧ (∀ code : Int, getWeatherCondition code ≠ "")
    ∧ getWeatherCondition = getWeatherConditionWorkflow := by
  refine ⟨by decide, ?_, ?_, ?_⟩
  · intro code h
    unfold getWeatherCondition
    rw [lookup_eq_none_of_forall_ne h]
  · intro code
    unfold getWeatherCondition
    cases h : conditionsTable.lookup code with
    | none => simp
    | some s =>
      by_cases hs : (s != "") = true <;> simp [hs]
      intro hcontra
      rw [hcontra] at hs
      simp at hs
  · funext code
    rfl

/-- Witness for C10: the unlisted code 7 maps to `Unknown`. -/
theorem weatherCondition_witness : getWeatherCondition 7 = "Unknown" :=
  weatherCondition_total_and_copies_agree.2.1 7 (by decide)

/-! ## C8 -/

/-- C8: `getEnvBoolean` returns the default when the variable is unset or
empty; otherwise the result is exactly `value.toLowerCase() === 'true' ||
value === '1'`, so any other non-empty value — `yes`, `on`, `enabled` — gives
`false` even when the default is `true`. -/
theorem getEnvBoolean_semantics (env : Env) (key : String) (d : Bool) :
    ((env key = none ∨ env key = some "") → getEnvBoolean env key d = d)
    ∧ (∀ s : String, env key = some s → s ≠ "" →
        getEnvBoolean env key d = (s.toLower == "true" || s == "1")) := by
  constructor
  · intro h
    unfold getEnvBoolean jsTruthy
    rcases h with h | h <;> simp [h]
  · intro s hs hne
    unfold getEnvBoolean jsTruthy
    simp [hs, hne]

/-- Witness for C8: `yes` yields `false` despite a `true` default, and an
unset variable yields the default. -/
theorem getEnvBoolean_witness :
    getEnvBoolean (fun _ => some "yes") "GALILEO_ENABLED" true =
      ("yes".toLower == "true" || "yes" == "1")
    ∧ getEnvBoolean (fun _ => none) "GALILEO_ENABLED" true = true :=
  ⟨(getEnvBoolean_semantics (fun _ => some "yes") "GALILEO_ENABLED" true).2
      "yes" rfl (by decide),
   (getEnvBoolean_semantics (fun _ => none) "GALILEO_ENABLED" true).1 (Or.inl rfl)⟩

/-! ## C6 -/

/-- C6: loading the configuration throws
`Required environment variable GALILEO_API_KEY is not set` exactly when
`GALILEO_API_KEY` is unset or empty; with a truthy key it always succeeds,
and `GALILEO_PROJECT_NAME`, `GALILEO_LOG_STREAM_NAME`, `GALILEO_BASE_URL`
fall back to `mastra-agents`, `default-stream`, `https://api.galileo.ai`
when unset or empty. -/
theorem loadConfig_requires_api_key (env : Env) :
    ((env "GALILEO_API_KEY" = none ∨ env "GALILEO_API_KEY" = some "") →
      loadConfig env =
        .error (.errObj "Required environment variable GALILEO_API_KEY is not set"))
    ∧ (∀ s : String, env "GALILEO_API_KEY" = some s → s ≠ "" →
        ∃ cfg : GalileoConfig, loadConfig env = .ok cfg
          ∧ cfg.apiKey = s
          ∧ ((env "GALILEO_PROJECT_NAME" = none ∨ env "GALILEO_PROJECT_NAME" = some "") →
              cfg.projectName = "mastra-agents")
          ∧ ((env "GALILEO_LOG_STREAM_NAME" = none ∨ env "GALILEO_LOG_STREAM_NAME" = some "") →
              cfg.logStreamName = "default-stream")
          ∧ ((env "GALILEO_BASE_URL" = none ∨ env "GALILEO_BASE_URL" = some "") →
              cfg.baseUrl = "https://api.galileo.ai")) := by
  constructor
  · intro h
    rw [loadConfig_eq]
    have : jsTruthy (env "GALILEO_API_KEY") = false := by
      rcases h with h | h <;> simp [jsTruthy, h]
    simp [this]
  · intro s hs hne
    have ht : jsTruthy (env "GALILEO_API_KEY") = true := by
      simp [jsTruthy, hs, hne]
    rw [loadConfig_eq]
    simp only [ht, if_true]
    refine ⟨_, rfl, ?_, ?_, ?_, ?_⟩
    · simp [hs]
    · intro h
      rcases h with h | h <;> simp [jsOrDefault, jsTruthy, h]
    · intro h
      rcases h with h | h <;> simp [jsOrDefault, jsTruthy, h]
    · intro h
      rcases h with h | h <;> simp [jsOrDefault, jsTruthy, h]

/-- Witness for C6: an empty environment makes loading fail with the exact
message, and an environment holding only the API key succeeds with all three
defaults. -/
theorem loadConfig_witness :
    loadConfig (fun _ => none) =
      .error (.errObj "Required environment variable GALILEO_API_KEY is not set")
    ∧ ∃ cfg : GalileoConfig,
        loadConfig (fun k => if k = "GALILEO_API_KEY" then some "sk-123" else none) = .ok cfg
        ∧ cfg.apiKey = "sk-123" ∧ cfg.projectName = "mastra-agents"
        ∧ cfg.logStreamName = "default-stream" ∧ cfg.baseUrl = "https://api.galileo.ai" := by
  refine ⟨(loadConfig_requires_api_key (fun _ => none)).1 (Or.inl rfl), ?_⟩
  obtain ⟨cfg, h1, h2, h3, h4, h5⟩ :=
    (loadConfig_requires_api_key
       (fun k => if k = "GALILEO_API_KEY" then some "sk-123" else none)).2
      "sk-123" (by decide) (by decide)
  exact ⟨cfg, h1, h2, h3 (Or.inl (by decide)), h4 (Or.inl (by decide)),
         h5 (Or.inl (by decide))⟩

/-! ## C5 -/

/-- C5: when the configuration is disabled, `logOperation` returns the
unwrapped callback itself — whatever the external SDK's `log` combinator
would have done — so the wrapped function agrees with `fn` on every input
(results and exceptions alike) and the SDK is never consulted. -/
theorem logOperation_disabled_identity {α β : Type} (config : GalileoConfig)
    (log : LogOptions → (α → Except JsErr β) → (α → Except JsErr β))
    (options : LogOptions) (fn : α → Except JsErr β)
    (h : config.enabled = false) :
    logOperation config log options fn = fn
    ∧ ∀ x : α, logOperation config log options fn x = fn x := by
  unfold logOperation
  simp [h]

/-- Witness for C5: with a disabled configuration and an SDK combinator that
would destroy the callback, `logOperation` still returns the callback
itself. -/
theorem logOperation_witness :
    logOperation (α := Nat) (β := Nat)
        { projectName := "p", logStreamName := "s", apiKey := "k",
          baseUrl := "u", enabled := false }
        (fun _ _ => fun _ => .error .nonError)
        { name := "op", spanType := "tool" }
        (fun n => .ok (n + 1))
      = (fun n => .ok (n + 1))
    ∧ ∀ x : Nat,
        logOperation
          { projectName := "p", logStreamName := "s", apiKey := "k",
            baseUrl := "u", enabled := false }
          (fun _ _ => fun _ => .error .nonError)
          { name := "op", spanType := "tool" }
          (fun n => .ok (n + 1)) x
        = .ok (x + 1) :=
  logOperation_disabled_identity
    { projectName := "p", logStreamName := "s", apiKey := "k",
      baseUrl := "u", enabled := false }
    (fun _ _ => fun _ => .error .nonError)
    { name := "op", spanType := "tool" }
    (fun n => .ok (n + 1)) rfl

/-! ## C7 -/

/-- C7: on SIGINT or SIGTERM the handler attempts exactly one flush when the
configuration is enabled and none when it is disabled, never retries, swallows
a flush failure (the handler is a total function of the flush outcome — no
exception escapes the `catch`), and in every case the final action is
`process.exit(0)`. -/
theorem signal_handlers_flush_once_then_exit_zero
    (config : GalileoConfig) (flushOutcome : Except JsErr Unit) :
    countFlushCalls (sigintHandler config flushOutcome)
        = (if config.enabled then 1 else 0)
    ∧ (sigintHandler config flushOutcome).getLast? = some (.exitCall 0)
    ∧ countExitCalls (sigintHandler config flushOutcome) = 1
    ∧ countFlushCalls (sigtermHandler config flushOutcome)
        = (if config.enabled then 1 else 0)
    ∧ (sigtermHandler config flushOutcome).getLast? = some (.exitCall 0)
    ∧ countExitCalls (sigtermHandler config flushOutcome) = 1 := by
  by_cases h : config.enabled = true <;>
    cases flushOutcome <;>
      simp [sigintHandler, sigtermHandler, gracefulFlush, countFlushCalls,
            countExitCalls, h, List.countP] <;>
        decide

/-! ## C9 -/

/-- C9: `setTracingContext` merges instead of replacing: in both copies each
field of the target is overwritten exactly when the update's value for it is
truthy, and keeps its previous value otherwise; and in the copy taking an
optional target, an absent target is left untouched while
`getTracingContext` on an absent target yields a record with every field
absent. -/
theorem setTracingContext_merges (r c : RuntimeCtx) (m : MastraCtx)
    (t : SimpleTracingContext) :
    (setTracingContext r c).traceId
        = (if jsTruthy c.traceId then c.traceId else r.traceId)
    ∧ (setTracingContext r c).currentSpan
        = (if c.currentSpan.isSome then c.currentSpan else r.currentSpan)
    ∧ (setTracingContext r c).parentSpan
        = (if c.parentSpan.isSome then c.parentSpan else r.parentSpan)
    ∧ setTracingContextSimple none t = none
    ∧ getTracingContextSimple none = { traceId := none, currentSpan := none }
    ∧ (∃ m' : MastraCtx, setTracingContextSimple (some m) t = some m'
        ∧ m'.traceId = (if jsTruthy t.traceId then t.traceId else m.traceId)
        ∧ m'.currentSpan
            = (if t.currentSpan.isSome then t.currentSpan else m.currentSpan)) := by
  refine ⟨?_, ?_, ?_, rfl, rfl, ?_⟩
  · by_cases h : jsTruthy c.traceId = true <;>
      by_cases h2 : c.currentSpan.isSome = true <;>
        by_cases h3 : c.parentSpan.isSome = true <;>
          simp [setTracingContext, h, h2, h3]
  · by_cases h : jsTruthy c.traceId = true <;>
      by_cases h2 : c.currentSpan.isSome = true <;>
        by_cases h3 : c.parentSpan.isSome = true <;>
          simp [setTracingContext, h, h2, h3]
  · by_cases h : jsTruthy c.traceId = true <;>
      by_cases h2 : c.currentSpan.isSome = true <;>
        by_cases h3 : c.parentSpan.isSome = true <;>
          simp [setTracingContext, h, h2, h3]
  · refine ⟨_, rfl, ?_, ?_⟩ <;>
      by_cases h : jsTruthy t.traceId = true <;>
        by_cases h2 : t.currentSpan.isSome = true <;>
          simp [setTracingContextSimple, h, h2]

/-! ## C4 -/

/-- Counterexample to C4 as stated: a parent whose stored `traceId` is the
empty string.  The empty string is a present value, but it is JS-falsy, so
`createChildTracingContext` does not copy it: the child's `traceId` is
`undefined`, not equal to the parent's. -/
theorem createChildTracingContext_counterexample :
    (createChildTracingContext
        { traceId := some "", currentSpan := none, parentSpan := none }).traceId
      ≠ ({ traceId := some "", currentSpan := none, parentSpan := none } :
          RuntimeCtx).traceId := by
  decide

/-- C4 (amended), covering both sourced copies of
`createChildTracingContext`.  RuntimeContext copy
(`src/context/tracing-context.ts`): the child's `traceId` equals the parent's
whenever the parent's `traceId` is truthy (present and non-empty) and is
absent otherwise; the parent's `currentSpan` always becomes the child's
`parentSpan`; the child's `currentSpan` is always absent.  Simple copy
(`src/tracing-context.ts`): the child's `traceId` is copied from the parent
unconditionally (a present-but-empty `traceId` included) and the parent's
`currentSpan` is carried in the child's `currentSpan` field, which serves as
the parent span for nested calls — this copy's interface has no `parentSpan`
field; an absent parent yields a child with every field absent.  In both
copies, fields absent in the parent are absent in the child. -/
theorem createChildTracingContext_inherits (p : RuntimeCtx)
    (m : Option MastraCtx) :
    ((createChildTracingContext p).traceId
        = (if jsTruthy p.traceId then p.traceId else none)
    ∧ (createChildTracingContext p).parentSpan = p.currentSpan
    ∧ (createChildTracingContext p).currentSpan = none)
    ∧ ((∀ c : MastraCtx, createChildTracingContextSimple (some c)
          = { traceId := c.traceId, currentSpan := c.currentSpan })
    ∧ createChildTracingContextSimple none
          = { traceId := none, currentSpan := none }
    ∧ (createChildTracingContextSimple m).traceId
          = (getTracingContextSimple m).traceId
    ∧ (createChildTracingContextSimple m).currentSpan
          = (getTracingContextSimple m).currentSpan) := by
  refine ⟨⟨?_, ?_, ?_⟩, fun c => rfl, rfl, rfl, rfl⟩ <;>
    by_cases h : jsTruthy p.traceId = true <;>
      cases h2 : p.currentSpan <;>
        simp [createChildTracingContext, RuntimeCtx.empty, h, h2]

/-! ## Helper lemmas for the tool operations -/

/-- `getWeather` always issues at least one external request: its very first
action is the geocoding fetch. -/
theorem getWeather_requests_ne_nil (w : WeatherWorld) (loc : String) :
    (getWeather w loc).2 ≠ [] := by
  unfold getWeather
  cases hg : w.geocodeFetch (geocodingUrlFor w loc) with
  | reject e => simp [hg]
  | response ok st body =>
    cases ok with
    | false => simp [hg]
    | true =>
      cases hr : body.results with
      | none => simp [hg, hr]
      | some rs =>
        cases rs with
        | nil => simp [hg, hr]
        | cons first rest =>
          cases hf : w.forecastFetch (weatherUrlFor first.latitude first.longitude) with
          | reject e => simp [hg, hr, hf]
          | response ok2 st2 data =>
            cases ok2 with
            | false => simp [hg, hr, hf]
            | true => simp [hg, hr, hf]

/-- If `createPaymentLink` issued no SDK call, it took the missing-tool path
and returned the re-wrapped missing-tool error. -/
theorem createPaymentLink_no_call_missing_tool (w : StripeWorld)
    (price productName : String) (su cu : Option String)
    (h : (createPaymentLink w price productName su cu).2 = []) :
    (createPaymentLink w price productName su cu).1
      = .error (.errObj "Failed to create payment link: Payment link tool not available") := by
  unfold createPaymentLink at h ⊢
  by_cases hc : w.toolNames.contains "create_payment_link" = true
  · have hm : "create_payment_link" ∈ w.toolNames := by simpa using hc
    cases hi : w.invokePaymentLink (paymentLinkParamsFor w price productName su cu) <;>
      simp [hm, hi] at h
  · have hm : "create_payment_link" ∉ w.toolNames := by simpa using hc
    simp [hm, JsErr.messageOrUnknown]

/-- If `createCustomer` issued no SDK call, it took the missing-tool path and
returned the re-wrapped missing-tool error. -/
theorem createCustomer_no_call_missing_tool (w : StripeWorld)
    (email : String) (name phone : Option String)
    (h : (createCustomer w email name phone).2 = []) :
    (createCustomer w email name phone).1
      = .error (.errObj "Failed to create customer: Customer creation tool not available") := by
  unfold createCustomer at h ⊢
  by_cases hc : w.toolNames.contains "create_customer" = true
  · have hm : "create_customer" ∈ w.toolNames := by simpa using hc
    cases hi : w.invokeCustomer { email := email, name := name, phone := phone } <;>
      simp [hm, hi] at h
  · have hm : "create_customer" ∉ w.toolNames := by simpa using hc
    simp [hm, JsErr.messageOrUnknown]

/-! ## C2 -/

/-- Counterexample to C2 as stated: the context
`{price: '', productName: 'Widget'}` has both required fields present, yet
`createPaymentLinkTool.execute` throws `Price and product name are required`,
because the JS guard `!price` also fires on a present-but-empty string. -/
theorem execute_validation_counterexample :
    createPaymentLinkToolExecute sampleStripeWorldOk
        { price := some "", productName := some "Widget",
          successUrl := none, cancelUrl := none }
      = (.error (.errObj "Price and product name are required"), [])
    ∧ (({ price := some "", productName := some "Widget",
          successUrl := none, cancelUrl := none } :
            PaymentLinkContext)).price.isSome = true := by
  exact ⟨rfl, rfl⟩

/-- C2 (amended): each execute callback throws its validation message, before
any external call, exactly when a required field is JS-falsy (absent or the
empty string): `Price and product name are required` iff `price` or
`productName` is falsy, `Email is required` iff `email` is falsy,
`Location is required` iff `location` is falsy; when the required fields are
truthy, execution is exactly the single underlying operation and its result
is returned unchanged. -/
theorem execute_validation (w : StripeWorld) (ww : WeatherWorld)
    (pc : PaymentLinkContext) (cc : CustomerContext) (wc : WeatherToolContext) :
    (createPaymentLinkToolExecute w pc
        = (.error (.errObj "Price and product name are required"), [])
      ↔ (jsTruthy pc.price = false ∨ jsTruthy pc.productName = false))
    ∧ (jsTruthy pc.price = true → jsTruthy pc.productName = true →
        createPaymentLinkToolExecute w pc
          = createPaymentLink w (pc.price.getD "") (pc.productName.getD "")
              pc.successUrl pc.cancelUrl)
    ∧ (createCustomerToolExecute w cc = (.error (.errObj "Email is required"), [])
      ↔ jsTruthy cc.email = false)
    ∧ (jsTruthy cc.email = true →
        createCustomerToolExecute w cc
          = createCustomer w (cc.email.getD "") cc.name cc.phone)
    ∧ (weatherToolExecute ww wc = (.error (.errObj "Location is required"), [])
      ↔ jsTruthy wc.location = false)
    ∧ (jsTruthy wc.location = true →
        weatherToolExecute ww wc = getWeather ww (wc.location.getD "")) := by
  refine ⟨⟨?_, ?_⟩, ?_, ⟨?_, ?_⟩, ?_, ⟨?_, ?_⟩, ?_⟩
  · -- payment link: the validation throw forces a falsy field
    intro h
    by_cases h1 : jsTruthy pc.price = true
    · by_cases h2 : jsTruthy pc.productName = true
      · exfalso
        simp [createPaymentLinkToolExecute, h1, h2] at h
        have hs : (createPaymentLink w (pc.price.getD "") (pc.productName.getD "")
            pc.successUrl pc.cancelUrl).2 = [] := by rw [h]
        have hf := createPaymentLink_no_call_missing_tool w _ _ _ _ hs
        have hp : (createPaymentLink w (pc.price.getD "") (pc.productName.getD "")
            pc.successUrl pc.cancelUrl).1
              = .error (.errObj "Price and product name are required") := by rw [h]
        rw [hp] at hf
        simp at hf
      · exact Or.inr (by simpa using h2)
    · exact Or.inl (by simpa using h1)
  · -- payment link: a falsy field forces the validation throw
    intro h
    rcases h with h | h <;> simp [createPaymentLinkToolExecute, h]
  · intro h1 h2
    simp [createPaymentLinkToolExecute, h1, h2]
  · -- customer: the validation throw forces a falsy email
    intro h
    by_cases h1 : jsTruthy cc.email = true
    · exfalso
      simp [createCustomerToolExecute, h1] at h
      have hs : (createCustomer w (cc.email.getD "") cc.name cc.phone).2 = [] := by
        rw [h]
      have hf := createCustomer_no_call_missing_tool w _ _ _ hs
      have hp : (createCustomer w (cc.email.getD "") cc.name cc.phone).1
          = .error (.errObj "Email is required") := by rw [h]
      rw [hp] at hf
      simp at hf
    · simpa using h1
  · intro h
    simp [createCustomerToolExecute, h]
  · intro h1
    simp [createCustomerToolExecute, h1]
  · -- weather: the validation throw forces a falsy location
    intro h
    by_cases h1 : jsTruthy wc.location = true
    · exfalso
      simp [weatherToolExecute, h1] at h
      have hs : (getWeather ww (wc.location.getD "")).2 = [] := by rw [h]
      exact getWeather_requests_ne_nil ww _ hs
    · simpa using h1
  · intro h
    simp [weatherToolExecute, h]
  · intro h1
    simp [weatherToolExecute, h1]

/-- Witness for C2 (amended): with truthy required fields each execute is the
underlying operation; with a falsy email the customer tool throws its
validation message before any external call. -/
theorem execute_validation_witness :
    createPaymentLinkToolExecute sampleStripeWorldOk
        { price := some "price_1", productName := some "Widget",
          successUrl := none, cancelUrl := none }
      = createPaymentLink sampleStripeWorldOk "price_1" "Widget" none none
    ∧ createCustomerToolExecute sampleStripeWorldOk
        { email := none, name := none, phone := none }
      = (.error (.errObj "Email is required"), [])
    ∧ weatherToolExecute sampleWeatherWorldOk { location := some "Paris" }
      = getWeather sampleWeatherWorldOk "Paris" :=
  ⟨(execute_validation sampleStripeWorldOk sampleWeatherWorldOk
      { price := some "price_1", productName := some "Widget",
        successUrl := none, cancelUrl := none }
      { email := none, name := none, phone := none }
      { location := some "Paris" }).2.1 rfl rfl,
   (execute_validation sampleStripeWorldOk sampleWeatherWorldOk
      { price := some "price_1", productName := some "Widget",
        successUrl := none, cancelUrl := none }
      { email := none, name := none, phone := none }
      { location := some "Paris" }).2.2.1.mpr rfl,
   (execute_validation sampleStripeWorldOk sampleWeatherWorldOk
      { price := some "price_1", productName := some "Widget",
        successUrl := none, cancelUrl := none }
      { email := none, name := none, phone := none }
      { location := some "Paris" }).2.2.2.2.2 rfl⟩

/-! ## C3 -/

/-- Counterexample to C3 as stated: on a fully successful run the weather
operation issues two external HTTP calls (geocoding, then forecast), not
one. -/
theorem getWeather_two_calls_counterexample :
    (getWeather sampleWeatherWorldOk "Paris").1
      = .ok { temperature := 18, feelsLike := 17, humidity := 60,
              windSpeed := 10, windGust := 15, conditions := "Overcast",
              location := "Paris" }
    ∧ (getWeather sampleWeatherWorldOk "Paris").2.length = 2
    ∧ (getWeather sampleWeatherWorldOk "Paris").2.length ≠ 1 := by
  refine ⟨rfl, rfl, by decide⟩

/-- C3 (amended): on its success path each Stripe operation issues exactly
one external SDK call, while the weather operation issues exactly two HTTP
calls — first the geocoding request, then the forecast request — and no
operation issues any further external call. -/
theorem success_path_call_counts (ww : WeatherWorld) (w : StripeWorld)
    (loc price productName email : String) (su cu name phone : Option String) :
    (∀ out : WeatherOutput, (getWeather ww loc).1 = .ok out →
        (getWeather ww loc).2.length = 2
        ∧ (getWeather ww loc).2.head? = some (.httpGet (geocodingUrlFor ww loc)))
    ∧ (∀ out : PaymentLinkOutput,
        (createPaymentLink w price productName su cu).1 = .ok out →
        (createPaymentLink w price productName su cu).2
          = [.sdkInvoke "create_payment_link"])
    ∧ (∀ out : CustomerOutput,
        (createCustomer w email name phone).1 = .ok out →
        (createCustomer w email name phone).2 = [.sdkInvoke "create_customer"]) := by
  refine ⟨?_, ?_, ?_⟩
  · intro out h
    unfold getWeather at h ⊢
    cases hg : ww.geocodeFetch (geocodingUrlFor ww loc) with
    | reject e => simp [hg] at h
    | response ok st body =>
      cases ok with
      | false => simp [hg] at h
      | true =>
        cases hr : body.results with
        | none => simp [hg, hr] at h
        | some rs =>
          cases rs with
          | nil => simp [hg, hr] at h
          | cons first rest =>
            cases hf : ww.forecastFetch (weatherUrlFor first.latitude first.longitude) with
            | reject e => simp [hg, hr, hf] at h
            | response ok2 st2 data =>
              cases ok2 with
              | false => simp [hg, hr, hf] at h
              | true => simp [hg, hr, hf]
  · intro out h
    unfold createPaymentLink at h ⊢
    by_cases hc : w.toolNames.contains "create_payment_link" = true
    · have hm : "create_payment_link" ∈ w.toolNames := by simpa using hc
      cases hi : w.invokePaymentLink (paymentLinkParamsFor w price productName su cu) <;>
        simp [hm, hi] at h ⊢
    · have hm : "create_payment_link" ∉ w.toolNames := by simpa using hc
      simp [hm] at h
  · intro out h
    unfold createCustomer at h ⊢
    by_cases hc : w.toolNames.contains "create_customer" = true
    · have hm : "create_customer" ∈ w.toolNames := by simpa using hc
      cases hi : w.invokeCustomer { email := email, name := name, phone := phone } <;>
        simp [hm, hi] at h ⊢
    · have hm : "create_customer" ∉ w.toolNames := by simpa using hc
      simp [hm] at h

/-- Witness for C3 (amended): concrete successful runs of the weather and
Stripe operations with their observed call lists. -/
theorem success_path_call_counts_witness :
    ((getWeather sampleWeatherWorldOk "Paris").2.length = 2
      ∧ (getWeather sampleWeatherWorldOk "Paris").2.head?
          = some (.httpGet (geocodingUrlFor sampleWeatherWorldOk "Paris")))
    ∧ (createPaymentLink sampleStripeWorldOk "price_1" "Widget" none none).2
        = [.sdkInvoke "create_payment_link"]
    ∧ (createCustomer sampleStripeWorldOk "ann@example.com" none none).2
        = [.sdkInvoke "create_customer"] :=
  ⟨(success_path_call_counts sampleWeatherWorldOk sampleStripeWorldOk
      "Paris" "price_1" "Widget" "ann@example.com" none none none none).1
    { temperature := 18, feelsLike := 17, humidity := 60, windSpeed := 10,
      windGust := 15, conditions := "Overcast", location := "Paris" } rfl,
   (success_path_call_counts sampleWeatherWorldOk sampleStripeWorldOk
      "Paris" "price_1" "Widget" "ann@example.com" none none none none).2.1
    { paymentLink := "https://buy.stripe.com/x", paymentLinkId := "plink_1",
      success := true } rfl,
   (success_path_call_counts sampleWeatherWorldOk sampleStripeWorldOk
      "Paris" "price_1" "Widget" "ann@example.com" none none none none).2.2
    { customerId := "cus_1", email := "ann@example.com", name := some "Ann",
      success := true } rfl⟩

/-! ## C1 -/

/-- A weather world whose network is down: every fetch rejects. -/
def sampleWeatherWorldReject : WeatherWorld :=
  { encodeURIComponent := fun s => s,
    geocodeFetch := fun _ => .reject (.errObj "network down"),
    forecastFetch := fun _ => .reject (.errObj "network down") }

/-- An `Error` whose message carries a non-empty prefix in front of another
error's message is never that error. -/
theorem prefixed_errObj_ne (pre : String) (hpre : pre.length ≠ 0) (e : JsErr) :
    JsErr.errObj (pre ++ e.messageOrUnknown) ≠ e := by
  cases e with
  | nonError => simp
  | errObj m =>
    intro hcontra
    have hm : pre ++ m = m := by
      simpa [JsErr.messageOrUnknown] using hcontra
    have hl := congrArg String.length hm
    rw [String.length_append] at hl
    omega

/-- Counterexample to C1 as stated: the Stripe SDK call raises
`Error('Your card was declined.')` inside `createPaymentLink`, but the error
that reaches the caller is a different, freshly constructed
`Error('Failed to create payment link: Your card was declined.')`. -/
theorem error_rewrap_counterexample :
    sampleStripeWorldDecline.invokePaymentLink
        (paymentLinkParamsFor sampleStripeWorldDecline "price_1" "Widget" none none)
      = .error (.errObj "Your card was declined.")
    ∧ (createPaymentLink sampleStripeWorldDecline "price_1" "Widget" none none).1
        = .error (.errObj "Failed to create payment link: Your card was declined.")
    ∧ JsErr.errObj "Failed to create payment link: Your card was declined."
        ≠ JsErr.errObj "Your card was declined." := by
  refine ⟨rfl, rfl, by decide⟩

/-- C1 (amended): errors raised inside the weather operation propagate to
the caller as the very same error value (there is no `catch` on that path),
but each Stripe helper catches every error raised inside its body — the SDK
call's error and its own missing-tool error alike — and throws a fresh
`Error` whose message is the operation's `Failed to ...: ` prefix followed by
the original message (`Unknown error` for a non-`Error` throw); the
replacement is never equal to the original error. -/
theorem error_propagation (ww : WeatherWorld) (w : StripeWorld)
    (loc st : String) (e : JsErr)
    (g : GeocodingResponse) (first : GeoResult) (rest : List GeoResult)
    (price productName email : String) (su cu name phone : Option String) :
    ((∀ url, ww.geocodeFetch url = .reject e) →
        (getWeather ww loc).1 = .error e)
    ∧ (g.results = some (first :: rest) →
        (∀ url, ww.geocodeFetch url = .response true st g) →
        (∀ url, ww.forecastFetch url = .reject e) →
        (getWeather ww loc).1 = .error e)
    ∧ ((∀ p, w.invokePaymentLink p = .error e) →
        w.toolNames.contains "create_payment_link" = true →
        (createPaymentLink w price productName su cu).1
          = .error (.errObj ("Failed to create payment link: " ++ e.messageOrUnknown))
        ∧ JsErr.errObj ("Failed to create payment link: " ++ e.messageOrUnknown) ≠ e)
    ∧ (w.toolNames.contains "create_payment_link" = false →
        (createPaymentLink w price productName su cu).1
          = .error (.errObj "Failed to create payment link: Payment link tool not available"))
    ∧ ((∀ p, w.invokeCustomer p = .error e) →
        w.toolNames.contains "create_customer" = true →
        (createCustomer w email name phone).1
          = .error (.errObj ("Failed to create customer: " ++ e.messageOrUnknown))
        ∧ JsErr.errObj ("Failed to create customer: " ++ e.messageOrUnknown) ≠ e) := by
  refine ⟨?_, ?_, ?_, ?_, ?_⟩
  · intro hg
    simp [getWeather, hg]
  · intro hres hg hf
    simp [getWeather, hg, hres, hf]
  · intro hi hc
    have hm : "create_payment_link" ∈ w.toolNames := by simpa using hc
    refine ⟨?_, prefixed_errObj_ne _ (by decide) e⟩
    simp [createPaymentLink, hm, hi]
  · intro hc
    have hm : "create_payment_link" ∉ w.toolNames := by simpa using hc
    simp [createPaymentLink, hm, JsErr.messageOrUnknown]
  · intro hi hc
    have hm : "create_customer" ∈ w.toolNames := by simpa using hc
    refine ⟨?_, prefixed_errObj_ne _ (by decide) e⟩
    simp [createCustomer, hm, hi]

/-- Witness for C1 (amended): a rejecting network propagates its error value
through `getWeather` unchanged, while a declined Stripe call reaches the
caller re-wrapped and distinct from the raised error. -/
theorem error_propagation_witness :
    (getWeather sampleWeatherWorldReject "Paris").1
      = .error (.errObj "network down")
    ∧ ((createPaymentLink sampleStripeWorldDecline "price_1" "Widget" none none).1
        = .error (.errObj ("Failed to create payment link: "
            ++ JsErr.messageOrUnknown (.errObj "Your card was declined.")))
      ∧ JsErr.errObj ("Failed to create payment link: "
            ++ JsErr.messageOrUnknown (.errObj "Your card was declined."))
          ≠ JsErr.errObj "Your card was declined.") :=
  ⟨(error_propagation sampleWeatherWorldReject sampleStripeWorldDecline
      "Paris" "OK" (.errObj "network down")
      { results := some [{ latitude := 0, longitude := 0, name := "" }] }
      { latitude := 0, longitude := 0, name := "" } []
      "price_1" "Widget" "ann@example.com" none none none none).1
    (fun _ => rfl),
   (error_propagation sampleWeatherWorldReject sampleStripeWorldDecline
      "Paris" "OK" (.errObj "Your card was declined.")
      { results := some [{ latitude := 0, longitude := 0, name := "" }] }
      { latitude := 0, longitude := 0, name := "" } []
      "price_1" "Widget" "ann@example.com" none none none none).2.2.1
    (fun _ => rfl) rfl⟩

end MastraGalileo
